import Mathlib

set_option maxRecDepth 100000

/-!
Verification of the search/filter, expand/collapse and card-numbering logic
of the React cheat-sheet app (src/App.jsx).

Strings are modelled with Lean `String`.  JavaScript `toLowerCase` is modelled
by mapping `Char.toLower` over the characters: this is the ASCII case mapping,
which agrees with JavaScript on every character occurring in the catalog
content (the catalog is ASCII text plus a few symbols and emoji that have no
case mapping).  JavaScript `String.prototype.includes` is modelled by a
contiguous-substring test on the character lists.
-/

/-- Model of JavaScript `s.toLowerCase()` (ASCII case mapping). -/
def lowerStr (s : String) : String := String.mk (s.data.map Char.toLower)

/-- Auxiliary for the substring test: does `needle` occur at the start of `hay`? -/
def charsStartWith : List Char → List Char → Bool
  | _, [] => true
  | [], _ :: _ => false
  | c :: cs, d :: ds => c == d && charsStartWith cs ds

/-- Does `needle` occur contiguously anywhere in `hay`?  (The empty needle
always occurs, matching JavaScript `includes`.) -/
def charsIncl : List Char → List Char → Bool
  | [], needle => needle.isEmpty
  | c :: t, needle => charsStartWith (c :: t) needle || charsIncl t needle

/-- Model of JavaScript `hay.includes(needle)`. -/
def strIncludes (hay needle : String) : Bool := charsIncl hay.data needle.data

/-- One catalog entry of the SECTIONS array in App.jsx: stable id, accent
color, label, short description, tip note, and the code snippet (verbatim
text). -/
structure Sec where
  id : String
  color : String
  label : String
  desc : String
  note : String
  code : String
deriving DecidableEq

/-- Catalog entry with id `fn-comp` from the SECTIONS array in App.jsx. -/
def sec_fnComp : Sec :=
  ⟨"fn-comp", "#F97316", "Functional Components",
   "Plain JS functions that return JSX. The modern way to write React.",
   "Hooks only work inside functional components. Prefer function declarations for top-level components — they show up better in stack traces.",
   "// Basic\nfunction Greeting(\x7b name \x7d) \x7b\n  return <h1>Hello, \x7bname\x7d!</h1>;\n\x7d\n\n// Arrow + default prop\nconst Btn = (\x7b label, onClick, disabled = false \x7d) => (\n  <button onClick=\x7bonClick\x7d disabled=\x7bdisabled\x7d>\x7blabel\x7d</button>\n);\n\n// Fragment — no extra DOM wrapper\nfunction List() \x7b\n  return (\n    <>\n      <li>Apple</li>\n      <li>Mango</li>\n    </>\n  );\n\x7d"⟩

/-- Catalog entry with id `comp-patterns` from the SECTIONS array in App.jsx. -/
def sec_compPatterns : Sec :=
  ⟨"comp-patterns", "#C084FC", "Component Patterns",
   "Composition, compound components, render props, HOCs, and custom hooks.",
   "Prefer composition and custom hooks over HOCs/render-props in modern React — simpler and hook-friendly.",
   "// 1. Composition\nfunction Card(\x7b children, footer \x7d) \x7b\n  return (\n    <div>\n      <div>\x7bchildren\x7d</div>\n      \x7bfooter && <div>\x7bfooter\x7d</div>\x7d\n    </div>\n  );\n\x7d\n\n// 2. Render prop\nfunction Mouse(\x7b render \x7d) \x7b\n  const [pos, setPos] = useState(\x7b x:0, y:0 \x7d);\n  return (\n    <div onMouseMove=\x7be => setPos(\x7b x:e.clientX, y:e.clientY \x7d)\x7d>\n      \x7brender(pos)\x7d\n    </div>\n  );\n\x7d\n\n// 3. HOC\nfunction withLogger(Wrapped) \x7b\n  return function(props) \x7b\n    useEffect(() => console.log(\x27mounted\x27, props), []);\n    return <Wrapped \x7b...props\x7d />;\n  \x7d;\n\x7d\n\n// 4. Custom hook (modern alternative)\nfunction useMouse() \x7b\n  const [pos, setPos] = useState(\x7b x:0, y:0 \x7d);\n  useEffect(() => \x7b\n    const fn = e => setPos(\x7b x:e.clientX, y:e.clientY \x7d);\n    window.addEventListener(\x27mousemove\x27, fn);\n    return () => window.removeEventListener(\x27mousemove\x27, fn);\n  \x7d, []);\n  return pos;\n\x7d"⟩

/-- Catalog entry with id `useState` from the SECTIONS array in App.jsx. -/
def sec_useState : Sec :=
  ⟨"useState", "#FF6B6B", "useState",
   "Manages local component state. Returns [value, setter].",
   "Use the functional form (prev =>) whenever new state depends on old. Never mutate state directly.",
   "const [count, setCount] = useState(0);\nconst [user, setUser]   = useState(\x7b name: \x27Ada\x27 \x7d);\n\n// Update primitive\nsetCount(prev => prev + 1);\n\n// Update object — spread to keep other keys\nsetUser(prev => (\x7b ...prev, name: \x27Grace\x27 \x7d));\n\n// Lazy initialiser (runs once)\nconst [data, setData] = useState(() => JSON.parse(localStorage.getItem(\x27data\x27) ?? \x27null\x27));"⟩

/-- Catalog entry with id `useEffect` from the SECTIONS array in App.jsx. -/
def sec_useEffect : Sec :=
  ⟨"useEffect", "#38BDF8", "useEffect",
   "Side effects after render — fetching, subscriptions, DOM changes.",
   "Every value from component scope used inside must be in the deps array. Return a cleanup function to avoid memory leaks.",
   "// Once on mount\nuseEffect(() => \x7b fetchUser(id).then(setUser); \x7d, []);\n\n// When deps change\nuseEffect(() => \x7b fetchUser(id).then(setUser); \x7d, [id]);\n\n// Cleanup\nuseEffect(() => \x7b\n  const sub = socket.subscribe(room, onMsg);\n  return () => sub.unsubscribe();\n\x7d, [room]);\n\n// Safe async pattern\nuseEffect(() => \x7b\n  let cancelled = false;\n  async function load() \x7b\n    const data = await fetchData(id);\n    if (!cancelled) setData(data);\n  \x7d\n  load();\n  return () => \x7b cancelled = true; \x7d;\n\x7d, [id]);"⟩

/-- Catalog entry with id `useRef` from the SECTIONS array in App.jsx. -/
def sec_useRef : Sec :=
  ⟨"useRef", "#67E8F9", "useRef",
   "Mutable value that persists across renders without triggering re-renders. Also for DOM access.",
   "Writing to ref.current never causes a re-render. Use refs for timer IDs, DOM nodes, previous values, and third-party imperative APIs.",
   "// DOM access\nfunction AutoFocus() \x7b\n  const ref = useRef(null);\n  useEffect(() => \x7b ref.current.focus(); \x7d, []);\n  return <input ref=\x7bref\x7d />;\n\x7d\n\n// Store mutable value (timer ID)\nconst timerRef = useRef(null);\nconst start = () => \x7b\n  timerRef.current = setInterval(() => tick(), 1000);\n\x7d;\nconst stop = () => clearInterval(timerRef.current);\n\n// Previous value pattern\nfunction usePrevious(value) \x7b\n  const ref = useRef();\n  useEffect(() => \x7b ref.current = value; \x7d, [value]);\n  return ref.current;\n\x7d\nconst prevCount = usePrevious(count);"⟩

/-- Catalog entry with id `useContext` from the SECTIONS array in App.jsx. -/
def sec_useContext : Sec :=
  ⟨"useContext", "#4ECDC4", "useContext",
   "Consume React context — avoids prop drilling through many layers.",
   "Every consumer re-renders when context value changes. Memoize the value object to prevent unnecessary re-renders.",
   "// 1. Create\nconst ThemeCtx = createContext(\x27light\x27);\n\n// 2. Provide\n// <ThemeCtx.Provider value=\"dark\">\n//   <App />\n// </ThemeCtx.Provider>\n\n// 3. Consume anywhere in tree\nconst theme = useContext(ThemeCtx);\n\n// Memoize value to avoid extra re-renders\nconst ctx = useMemo(() => (\x7b user, logout \x7d), [user]);"⟩

/-- Catalog entry with id `useReducer` from the SECTIONS array in App.jsx. -/
def sec_useReducer : Sec :=
  ⟨"useReducer", "#A78BFA", "useReducer",
   "useState for complex state. Centralises updates in a reducer function.",
   "Prefer useReducer when multiple sub-values update together or when next state depends on previous in complex ways.",
   "const reducer = (state, action) => \x7b\n  switch (action.type) \x7b\n    case \x27INC\x27:   return \x7b count: state.count + 1 \x7d;\n    case \x27RESET\x27: return \x7b count: 0 \x7d;\n    default:      return state;\n  \x7d\n\x7d;\n\nconst [state, dispatch] = useReducer(reducer, \x7b count: 0 \x7d);\n\ndispatch(\x7b type: \x27INC\x27 \x7d);\ndispatch(\x7b type: \x27RESET\x27 \x7d);"⟩

/-- Catalog entry with id `useCallback` from the SECTIONS array in App.jsx. -/
def sec_useCallback : Sec :=
  ⟨"useCallback", "#F59E0B", "useCallback",
   "Memoizes a function — stable reference unless deps change.",
   "Only useful when passing to React.memo children or as useEffect deps. Otherwise it just adds overhead.",
   "const handleClick = useCallback(() => \x7b\n  doSomething(id);\n\x7d, [id]);\n\n// Pass to memoized child without breaking memo\n// <MemoChild onClick=\x7bhandleClick\x7d />\n\n// Equivalent to:\nconst fn = useMemo(() => () => doSomething(id), [id]);"⟩

/-- Catalog entry with id `useMemo` from the SECTIONS array in App.jsx. -/
def sec_useMemo : Sec :=
  ⟨"useMemo", "#34D399", "useMemo",
   "Memoizes an expensive computed value — recalculates only when deps change.",
   "Don\x27t over-use — it adds memory overhead. Profile first, then apply where you measure a real problem.",
   "const sorted = useMemo(() =>\n  [...items].sort((a, b) => a.name.localeCompare(b.name)),\n  [items]\n);\n\n// Stable ref for context value\nconst ctx = useMemo(() => (\x7b user, logout \x7d), [user]);\n\n// Derived value\nconst total = useMemo(\n  () => cart.reduce((sum, i) => sum + i.price, 0),\n  [cart]\n);"⟩

/-- Catalog entry with id `custom-hooks` from the SECTIONS array in App.jsx. -/
def sec_customHooks : Sec :=
  ⟨"custom-hooks", "#A3E635", "Custom Hooks",
   "Extract reusable stateful logic into \x27use\x27 prefixed functions.",
   "Must start with \x27use\x27 so React\x27s linter enforces the rules of hooks. One clear purpose per hook.",
   "// useFetch\nfunction useFetch(url) \x7b\n  const [data, setData]       = useState(null);\n  const [loading, setLoading] = useState(true);\n  const [error, setError]     = useState(null);\n  useEffect(() => \x7b\n    let cancelled = false;\n    fetch(url).then(r => r.json())\n      .then(d => \x7b if (!cancelled) \x7b setData(d); setLoading(false); \x7d \x7d)\n      .catch(e => \x7b if (!cancelled) \x7b setError(e); setLoading(false); \x7d \x7d);\n    return () => \x7b cancelled = true; \x7d;\n  \x7d, [url]);\n  return \x7b data, loading, error \x7d;\n\x7d\n\n// useLocalStorage\nfunction useLocalStorage(key, init) \x7b\n  const [val, setVal] = useState(() => \x7b\n    try \x7b return JSON.parse(localStorage.getItem(key)) ?? init; \x7d\n    catch \x7b return init; \x7d\n  \x7d);\n  const set = v => \x7b setVal(v); localStorage.setItem(key, JSON.stringify(v)); \x7d;\n  return [val, set];\n\x7d\n\n// useDebounce\nfunction useDebounce(value, delay = 300) \x7b\n  const [debounced, setDebounced] = useState(value);\n  useEffect(() => \x7b\n    const t = setTimeout(() => setDebounced(value), delay);\n    return () => clearTimeout(t);\n  \x7d, [value, delay]);\n  return debounced;\n\x7d"⟩

/-- Catalog entry with id `props-state` from the SECTIONS array in App.jsx. -/
def sec_propsState : Sec :=
  ⟨"props-state", "#F472B6", "Props & State",
   "Props flow down (read-only). State lives locally and triggers re-renders.",
   "Lift state to the nearest common ancestor when siblings share it. Derive values instead of storing them in state.",
   "// Props\nfunction Card(\x7b title, count, onClick \x7d) \x7b\n  return <div onClick=\x7bonClick\x7d>\x7btitle\x7d: \x7bcount\x7d</div>;\n\x7d\n\n// Default prop\nfunction Badge(\x7b label = \x27New\x27 \x7d) \x7b ... \x7d\n\n// Children\nfunction Modal(\x7b children \x7d) \x7b\n  return <div className=\"modal\">\x7bchildren\x7d</div>;\n\x7d\n\n// Local state\nconst [open, setOpen] = useState(false);\n\n// Derived — compute, don\x27t store\nconst [items, setItems] = useState([]);\nconst count = items.length; // NOT a separate useState"⟩

/-- Catalog entry with id `loops` from the SECTIONS array in App.jsx. -/
def sec_loops : Sec :=
  ⟨"loops", "#60A5FA", "Loops & Lists",
   "Render lists with .map() — always provide a stable, unique key.",
   "Never use array index as a key for lists that can be reordered or filtered. Keys must only be unique among siblings.",
   "// .map()\n// <ul>\n//   \x7bitems.map(item => (\n//     <li key=\x7bitem.id\x7d>\x7bitem.name\x7d</li>\n//   ))\x7d\n// </ul>\n\n// .filter() then .map()\nconst active = users\n  .filter(u => u.active)\n  .map(u => <UserCard key=\x7bu.id\x7d user=\x7bu\x7d />);\n\n// Conditional rendering\n// \x7bisLoggedIn ? <Dashboard /> : <Login />\x7d\n// \x7berror && <ErrorBanner message=\x7berror\x7d />\x7d\n// \x7bloading && <Spinner />\x7d"⟩

/-- Catalog entry with id `events` from the SECTIONS array in App.jsx. -/
def sec_events : Sec :=
  ⟨"events", "#FCD34D", "Event Handling",
   "React wraps native events in SyntheticEvent for cross-browser consistency.",
   "Always call e.preventDefault() in form onSubmit. Use e.stopPropagation() to prevent bubbling to parent handlers.",
   "// Common events: onClick onChange onSubmit onKeyDown onBlur\n\nconst handleClick = e => \x7b\n  e.preventDefault();    // stop default browser action\n  e.stopPropagation();   // stop event bubbling\n  console.log(e.target, e.currentTarget);\n\x7d;\n\n// Keyboard\nconst handleKey = e => \x7b\n  if (e.key === \x27Enter\x27)  submit();\n  if (e.key === \x27Escape\x27) close();\n\x7d;\n\n// Generic change handler (uses input name attribute)\nconst handleChange = e => \x7b\n  const \x7b name, value, type, checked \x7d = e.target;\n  setForm(p => (\x7b\n    ...p,\n    [name]: type === \x27checkbox\x27 ? checked : value,\n  \x7d));\n\x7d;\n\n// Event delegation — one handler for many children\nconst handleList = e => \x7b\n  const id = e.target.closest(\x27li\x27)?.dataset.id;\n  if (id) handleSelect(id);\n\x7d;"⟩

/-- Catalog entry with id `controlled` from the SECTIONS array in App.jsx. -/
def sec_controlled : Sec :=
  ⟨"controlled", "#FB7185", "Controlled vs Uncontrolled",
   "Controlled: React owns the value. Uncontrolled: DOM owns it, read via ref.",
   "Prefer controlled inputs — predictable and easy to validate. File inputs are always uncontrolled. useRef for 3rd-party libs.",
   "// CONTROLLED — value + onChange\nfunction Controlled() \x7b\n  const [val, setVal] = useState(\x27\x27);\n  return (\n    <input value=\x7bval\x7d onChange=\x7be => setVal(e.target.value)\x7d />\n  );\n\x7d\n\n// UNCONTROLLED — defaultValue + ref\nfunction Uncontrolled() \x7b\n  const ref = useRef(null);\n  const submit = () => console.log(ref.current.value);\n  return (\n    <>\n      <input ref=\x7bref\x7d defaultValue=\"initial\" />\n      <button onClick=\x7bsubmit\x7d>Read</button>\n    </>\n  );\n\x7d\n\n// File input — always uncontrolled\n// <input type=\"file\" ref=\x7bfileRef\x7d />\n\n// Controlled select / checkbox\n// <select value=\x7bval\x7d onChange=\x7be => setVal(e.target.value)\x7d>\n// <input type=\"checkbox\" checked=\x7bon\x7d onChange=\x7be => setOn(e.target.checked)\x7d />"⟩

/-- Catalog entry with id `forms` from the SECTIONS array in App.jsx. -/
def sec_forms : Sec :=
  ⟨"forms", "#E879F9", "Forms with Validation",
   "Full form pattern — multiple fields, submit validation, per-field errors.",
   "The [name]: value pattern lets one handler drive all fields. For complex forms use React Hook Form — it avoids re-renders on every keystroke.",
   "function SignupForm() \x7b\n  const [form, setForm]     = useState(\x7b name:\x27\x27, email:\x27\x27, password:\x27\x27 \x7d);\n  const [errors, setErrors] = useState(\x7b\x7d);\n\n  const handleChange = e => \x7b\n    const \x7b name, value \x7d = e.target;\n    setForm(p => (\x7b ...p, [name]: value \x7d));\n    if (errors[name]) setErrors(p => (\x7b ...p, [name]: \x27\x27 \x7d));\n  \x7d;\n\n  const validate = () => \x7b\n    const e = \x7b\x7d;\n    if (!form.name.trim())           e.name = \x27Required\x27;\n    if (!/\\S+@\\S+/.test(form.email)) e.email = \x27Invalid email\x27;\n    if (form.password.length < 8)    e.password = \x27Min 8 chars\x27;\n    return e;\n  \x7d;\n\n  const handleSubmit = e => \x7b\n    e.preventDefault();\n    const errs = validate();\n    if (Object.keys(errs).length) \x7b setErrors(errs); return; \x7d\n    // await api.signup(form)\n  \x7d;\n\n  return (\n    <form onSubmit=\x7bhandleSubmit\x7d noValidate>\n      <input name=\"name\"     value=\x7bform.name\x7d     onChange=\x7bhandleChange\x7d />\n      \x7berrors.name && <span>\x7berrors.name\x7d</span>\x7d\n      <input name=\"email\"    value=\x7bform.email\x7d    onChange=\x7bhandleChange\x7d />\n      \x7berrors.email && <span>\x7berrors.email\x7d</span>\x7d\n      <input name=\"password\" value=\x7bform.password\x7d onChange=\x7bhandleChange\x7d type=\"password\" />\n      \x7berrors.password && <span>\x7berrors.password\x7d</span>\x7d\n      <button type=\"submit\">Sign Up</button>\n    </form>\n  );\n\x7d"⟩

/-- Catalog entry with id `lazy` from the SECTIONS array in App.jsx. -/
def sec_lazy : Sec :=
  ⟨"lazy", "#E879F9", "React.lazy & Suspense",
   "Code-split components — load only when needed to shrink the initial bundle.",
   "React.lazy only works with default exports. Wrap Suspense in an error boundary to handle chunk load failures.",
   "// Lazy load (must be default export)\nconst Dashboard = React.lazy(() => import(\x27./Dashboard\x27));\nconst Chart     = React.lazy(() => import(\x27./Chart\x27));\n\n// Wrap with Suspense\n// <Suspense fallback=\x7b<Spinner />\x7d>\n//   <Dashboard />\n// </Suspense>\n\n// Route-level splitting\nconst Home    = React.lazy(() => import(\x27./pages/Home\x27));\nconst Profile = React.lazy(() => import(\x27./pages/Profile\x27));\n// <Suspense fallback=\x7b<PageSkeleton />\x7d>\n//   <Routes>\n//     <Route path=\"/\"        element=\x7b<Home />\x7d />\n//     <Route path=\"/profile\" element=\x7b<Profile />\x7d />\n//   </Routes>\n// </Suspense>"⟩

/-- Catalog entry with id `router` from the SECTIONS array in App.jsx. -/
def sec_router : Sec :=
  ⟨"router", "#2DD4BF", "React Router v6",
   "Client-side routing — the de-facto standard for React SPAs.",
   "v6: Routes not Switch, all routes exact by default. useNavigate replaces useHistory. Nested route paths are relative.",
   "// npm i react-router-dom\n// <BrowserRouter><App /></BrowserRouter>\n\n// Declare routes\n// <Routes>\n//   <Route path=\"/\"          element=\x7b<Home />\x7d />\n//   <Route path=\"/users/:id\" element=\x7b<UserDetail />\x7d />\n//   <Route path=\"*\"          element=\x7b<NotFound />\x7d />\n// </Routes>\n\n// Links\n// <Link to=\"/about\">About</Link>\n// <NavLink to=\"/about\" className=\x7b(\x7bisActive\x7d) => isActive ? \x27active\x27 : \x27\x27\x7d>\n\n// Programmatic navigation\nconst navigate = useNavigate();\nnavigate(\x27/dashboard\x27);\nnavigate(-1); // back\n\n// Params & query string\nconst \x7b id \x7d          = useParams();         // /users/:id\nconst [params]        = useSearchParams();   // ?tab=info\nconst tab             = params.get(\x27tab\x27);\n\n// Nested routes with Outlet\n// <Route path=\"/settings\" element=\x7b<Settings />\x7d>\n//   <Route path=\"profile\" element=\x7b<Profile />\x7d />  // <Outlet /> in Settings"⟩

/-- Catalog entry with id `perf` from the SECTIONS array in App.jsx. -/
def sec_perf : Sec :=
  ⟨"perf", "#34D399", "Re-renders & Performance",
   "When React re-renders and how to prevent unnecessary ones.",
   "Don\x27t optimise prematurely. Profile first with React DevTools Profiler, then apply memo/useCallback/useMemo where measured.",
   "// Re-renders when:\n// 1. Own state changes\n// 2. Parent re-renders (even with same props)\n// 3. Consumed context changes\n\n// React.memo — skip if props unchanged\nconst List = React.memo((\x7b items \x7d) => (\n  <ul>\x7bitems.map(i => <li key=\x7bi.id\x7d>\x7bi.name\x7d</li>)\x7d</ul>\n));\n\n// Stable refs prevent breaking memo\nconst items  = useMemo(() => data.map(format), [data]);\nconst onClick = useCallback(() => doThing(), []);\n// <List items=\x7bitems\x7d onClick=\x7bonClick\x7d />\n\n// Derive, don\x27t store\nconst count = items.length; // not useState(0)\n\n// React 18 automatic batching\nsetTimeout(() => \x7b\n  setA(1); // ─┐ one\n  setB(2); // ─┘ re-render"⟩

/-- Catalog entry with id `error-boundaries` from the SECTIONS array in App.jsx. -/
def sec_errorBoundaries : Sec :=
  ⟨"error-boundaries", "#F87171", "Error Boundaries",
   "Catch render errors in a subtree and show a fallback UI instead of crashing.",
   "Place one at app root plus smaller ones around independent widgets. react-error-boundary package adds hook-friendly reset/retry support.",
   "class ErrorBoundary extends React.Component \x7b\n  state = \x7b hasError: false, error: null \x7d;\n\n  static getDerivedStateFromError(error) \x7b\n    return \x7b hasError: true, error \x7d;\n  \x7d\n\n  componentDidCatch(error, info) \x7b\n    logToService(error, info.componentStack);\n  \x7d\n\n  render() \x7b\n    if (this.state.hasError)\n      return this.props.fallback ?? <h2>Something went wrong.</h2>;\n    return this.props.children;\n  \x7d\n\x7d\n\n// <ErrorBoundary fallback=\x7b<ErrorPage />\x7d>\n//   <Suspense fallback=\x7b<Spinner />\x7d>\n//     <LazyPage />\n//   </Suspense>\n// </ErrorBoundary>\n\n// Does NOT catch:\n// ✗ Event handlers  ✗ Async (setTimeout/fetch)\n// ✗ SSR             ✗ Errors inside the boundary itself"⟩

/-- Catalog entry with id `interview` from the SECTIONS array in App.jsx. -/
def sec_interview : Sec :=
  ⟨"interview", "#FB923C", "Interview Essentials",
   "Virtual DOM, reconciliation, rules of hooks, and key concepts.",
   "Other hot topics: lifting state, prop drilling solutions, synthetic events, mount/update/unmount phases, and React 18 concurrent features.",
   "// Virtual DOM — lightweight JS copy of the DOM.\n// React diffs it and batches minimal real DOM updates.\n\n// Reconciliation — the diffing algorithm.\n// Keys help React track which list items changed.\n\n// Rules of Hooks:\n// 1. Only call at top level (not in loops/conditions)\n// 2. Only call from React functions or custom hooks\n\n// React.memo\nconst Pure = React.memo((\x7b name \x7d) => <p>\x7bname\x7d</p>);\n\n// Controlled vs Uncontrolled (see dedicated card)\n\n// Error boundary (class only — no hook equivalent)\n// getDerivedStateFromError + componentDidCatch\n\n// Key interview questions:\n// • What causes a re-render?\n// • How does useEffect cleanup work?\n// • useMemo vs useCallback?\n// • What is prop drilling and how do you avoid it?\n// • How does React reconciliation use keys?"⟩

/-- Catalog entry with id `temp-converter` from the SECTIONS array in App.jsx. -/
def sec_tempConverter : Sec :=
  ⟨"temp-converter", "#FF8C42", "Mini App: Temperature Converter",
   "Two-way controlled inputs, derived state, and conversion formulas.",
   "Store both as strings to avoid the NaN edge case on empty input. Derive the label with useMemo — don\x27t store it as state.",
   "function TempConverter() \x7b\n  const [c, setC] = useState(\x27\x27);\n  const [f, setF] = useState(\x27\x27);\n\n  const fromC = e => \x7b\n    const v = e.target.value;\n    setC(v);\n    setF(v === \x27\x27 ? \x27\x27 : ((v * 9/5) + 32).toFixed(1));\n  \x7d;\n\n  const fromF = e => \x7b\n    const v = e.target.value;\n    setF(v);\n    setC(v === \x27\x27 ? \x27\x27 : ((v - 32) * 5/9).toFixed(1));\n  \x7d;\n\n  const label = useMemo(() => \x7b\n    const n = parseFloat(c);\n    if (isNaN(n)) return \x27\x27;\n    if (n < 0)    return \x27Freezing 🥶\x27;\n    if (n < 20)   return \x27Cool 🌤\x27;\n    if (n < 35)   return \x27Warm ☀️\x27;\n    return \x27Hot 🔥\x27;\n  \x7d, [c]);\n\n  return (\n    <div>\n      <input type=\"number\" value=\x7bc\x7d onChange=\x7bfromC\x7d placeholder=\"°C\" />\n      <input type=\"number\" value=\x7bf\x7d onChange=\x7bfromF\x7d placeholder=\"°F\" />\n      \x7blabel && <p>\x7blabel\x7d</p>\x7d\n    </div>\n  );\n\x7d\n// Formulas: C→F: (C × 9/5) + 32   F→C: (F − 32) × 5/9"⟩

/-- Catalog entry with id `traffic-light` from the SECTIONS array in App.jsx. -/
def sec_trafficLight : Sec :=
  ⟨"traffic-light", "#84CC16", "Mini App: Traffic Light",
   "Cycling state with modulo, useEffect timers, and cleanup.",
   "The cleanup clearTimeout is critical — without it a stale timer fires after the component updates, causing double-advances. Classic interview gotcha.",
   "const LIGHTS = [\n  \x7b color:\x27red\x27,    ms:4000, hex:\x27#EF4444\x27 \x7d,\n  \x7b color:\x27yellow\x27, ms:1500, hex:\x27#EAB308\x27 \x7d,\n  \x7b color:\x27green\x27,  ms:3000, hex:\x27#22C55E\x27 \x7d,\n];\n\nfunction TrafficLight() \x7b\n  const [idx, setIdx]         = useState(0);\n  const [running, setRunning] = useState(true);\n\n  useEffect(() => \x7b\n    if (!running) return;\n    const t = setTimeout(() => \x7b\n      setIdx(i => (i + 1) % LIGHTS.length); // cycle with modulo\n    \x7d, LIGHTS[idx].ms);\n    return () => clearTimeout(t); // cleanup!\n  \x7d, [idx, running]);\n\n  return (\n    <div>\n      \x7bLIGHTS.map((l, i) => (\n        <div key=\x7bl.color\x7d style=\x7b\x7b\n          width:60, height:60, borderRadius:\x2750%\x27,\n          background: i === idx ? l.hex : \x27#333\x27,\n          boxShadow: i === idx ? \x270 0 20px \x27 + l.hex : \x27none\x27,\n        \x7d\x7d />\n      ))\x7d\n      <button onClick=\x7b() => setRunning(r => !r)\x7d>\n        \x7brunning ? \x27Pause\x27 : \x27Resume\x27\x7d\n      </button>\n    </div>\n  );\n\x7d"⟩

/-- Catalog entry with id `mini-apps` from the SECTIONS array in App.jsx. -/
def sec_miniApps : Sec :=
  ⟨"mini-apps", "#818CF8", "Mini Apps: Todo, Fetch & Debounce",
   "CRUD array state, async loading/error/data pattern, and debounced search.",
   "For arrays: never push/splice — always use spread/map/filter. For fetch: always handle all 3 states (loading, data, error). Cancel stale requests.",
   "// ── TODO (CRUD) ──────────────────────────────────\nfunction TodoList() \x7b\n  const [todos, setTodos] = useState([]);\n  const [input, setInput] = useState(\x27\x27);\n  const add    = () => \x7b if (!input.trim()) return;\n    setTodos(p => [...p, \x7b id:Date.now(), text:input, done:false \x7d]);\n    setInput(\x27\x27); \x7d;\n  const toggle = id => setTodos(p =>\n    p.map(t => t.id===id ? \x7b...t, done:!t.done\x7d : t));\n  const remove = id => setTodos(p => p.filter(t => t.id!==id));\n  return (\n    <div>\n      <input value=\x7binput\x7d onChange=\x7be=>setInput(e.target.value)\x7d\n             onKeyDown=\x7be=>e.key===\x27Enter\x27&&add()\x7d />\n      <button onClick=\x7badd\x7d>Add</button>\n      \x7btodos.map(t=>(\n        <div key=\x7bt.id\x7d>\n          <span onClick=\x7b()=>toggle(t.id)\x7d\n            style=\x7b\x7btextDecoration:t.done?\x27line-through\x27:\x27none\x27\x7d\x7d>\n            \x7bt.text\x7d\n          </span>\n          <button onClick=\x7b()=>remove(t.id)\x7d>✕</button>\n        </div>\n      ))\x7d\n    </div>\n  );\n\x7d\n\n// ── FETCH (loading/data/error) ────────────────────\nfunction UserCard(\x7b id \x7d) \x7b\n  const [user, setUser]       = useState(null);\n  const [loading, setLoading] = useState(true);\n  const [error, setError]     = useState(null);\n  useEffect(() => \x7b\n    let gone = false;\n    setLoading(true);\n    fetch(\x27https://jsonplaceholder.typicode.com/users/\x27+id)\n      .then(r => r.json())\n      .then(d => \x7b if(!gone) \x7b setUser(d); setLoading(false); \x7d \x7d)\n      .catch(e => \x7b if(!gone) \x7b setError(e.message); setLoading(false); \x7d \x7d);\n    return () => \x7b gone = true; \x7d;\n  \x7d, [id]);\n  if (loading) return <p>Loading…</p>;\n  if (error)   return <p>Error: \x7berror\x7d</p>;\n  return <div><b>\x7buser.name\x7d</b><p>\x7buser.email\x7d</p></div>;\n\x7d\n\n// ── DEBOUNCED SEARCH ──────────────────────────────\nfunction SearchBox() \x7b\n  const [query, setQuery] = useState(\x27\x27);\n  const [results, setResults] = useState([]);\n\n  useEffect(() => \x7b\n    if (!query.trim()) return;\n    const t = setTimeout(async () => \x7b\n      const r = await fetch(\x27/api/search?q=\x27+query).then(r=>r.json());\n      setResults(r);\n    \x7d, 400);\n    return () => clearTimeout(t); // cancel on next keystroke\n  \x7d, [query]);\n\n  return (\n    <div>\n      <input value=\x7bquery\x7d onChange=\x7be=>setQuery(e.target.value)\x7d\n             placeholder=\"Search…\" />\n      \x7bresults.map(r => <p key=\x7br.id\x7d>\x7br.title\x7d</p>)\x7d\n    </div>\n  );\n\x7d"⟩

/-- The full content catalog, in source order (the SECTIONS array in App.jsx). -/
def SECTIONS : List Sec :=
  [sec_fnComp, sec_compPatterns, sec_useState, sec_useEffect, sec_useRef, sec_useContext, sec_useReducer, sec_useCallback, sec_useMemo, sec_customHooks, sec_propsState, sec_loops, sec_events, sec_controlled, sec_forms, sec_lazy, sec_router, sec_perf, sec_errorBoundaries, sec_interview, sec_tempConverter, sec_trafficLight, sec_miniApps]
/-- The filter predicate of `shown` in App.jsx, applied to an already
lowercased query `lq`: the entry matches when `lq` is a substring of the
lowercase label, OR the lowercase description, OR the lowercase code.  The
`note` and `id` fields are not consulted. -/
def secMatches (lq : String) (s : Sec) : Bool :=
  strIncludes (lowerStr s.label) lq ||
    strIncludes (lowerStr s.desc) lq ||
      strIncludes (lowerStr s.code) lq

/-- The derived visible list (`shown` in App.jsx): lowercase the query once,
then keep the catalog entries whose label, description or code contains it. -/
def shown (q : String) : List Sec :=
  SECTIONS.filter (secMatches (lowerStr q))

/-- Model of `SECTIONS.indexOf(s)` for an element of the list: the position of
the first occurrence of `s` (and the length of the list when `s` is absent). -/
def secIdx : List Sec → Sec → Nat
  | [], _ => 0
  | t :: rest, s => if t = s then 0 else secIdx rest s + 1

/-- The rendered card list with displayed numbers: App.jsx renders
`shown.map(s => Card with n := SECTIONS.indexOf(s) + 1)`. -/
def cardNumbers (q : String) : List (Sec × Nat) :=
  (shown q).map (fun s => (s, secIdx SECTIONS s + 1))

/-- UI state of the rendered app: the current query and the list of mounted
cards in visible order, each carrying its local `open` flag (the `useState`
inside `Card`). -/
structure AppState where
  q : String
  cards : List (String × Bool)

/-- Look up the `open` flag of the card with key `i`; `none` when no such card
is mounted. -/
def flagOf : List (String × Bool) → String → Option Bool
  | [], _ => none
  | (k, v) :: rest, i => if k = i then some v else flagOf rest i

/-- React reconciliation of the keyed card list after a render for query `q`:
a card whose key was already mounted keeps its state, a newly appearing key
mounts with the initial state `false`, and keys that are no longer rendered
are unmounted (their state is destroyed). -/
def mountCards (prev : List (String × Bool)) (q : String) : List (String × Bool) :=
  (shown q).map (fun s => (s.id, (flagOf prev s.id).getD false))

/-- Initial app state: empty query, every card of the full catalog mounted
collapsed (`useState(false)` in `Card`, `useState("")` in `App`). -/
def initState : AppState := ⟨"", mountCards [] ""⟩

/-- Typing in the search box: store the new query and re-render the card list. -/
def setQuery (st : AppState) (q2 : String) : AppState :=
  ⟨q2, mountCards st.cards q2⟩

/-- Clicking the header of the card with key `i`: that card's
`setOpen(o => !o)` flips its own flag and nothing else. -/
def toggleCard (st : AppState) (i : String) : AppState :=
  ⟨st.q, st.cards.map (fun p => if p.1 = i then (p.1, !p.2) else p)⟩

/-- The `open` flag of card `i` in state `st` (`none` when the card is not
mounted). -/
def cardFlag (st : AppState) (i : String) : Option Bool :=
  flagOf st.cards i
/-- Round trip of `Char.ofNat` on valid code points. -/
theorem toNat_ofNat_valid (n : Nat) (h : n.isValidChar) : (Char.ofNat n).toNat = n := by
  rw [Char.ofNat, dif_pos h]
  rfl

/-- ASCII lowercasing of a character is idempotent. -/
theorem toLower_toLower (c : Char) : c.toLower.toLower = c.toLower := by
  unfold Char.toLower
  by_cases h : c.toNat ≥ 65 ∧ c.toNat ≤ 90
  · rw [if_pos h]
    have hv : (c.toNat + 32).isValidChar := Or.inl (by omega)
    have ht : (Char.ofNat (c.toNat + 32)).toNat = c.toNat + 32 := toNat_ofNat_valid _ hv
    rw [if_neg]
    rw [ht]
    omega
  · rw [if_neg h, if_neg h]

/-- Lowercasing a string is idempotent. -/
theorem lowerStr_idem (s : String) : lowerStr (lowerStr s) = lowerStr s := by
  unfold lowerStr
  simp only [List.map_map]
  congr 1
  exact List.map_congr_left (fun a _ => toLower_toLower a)

/-- Membership in the visible list, unfolded to the filter predicate. -/
theorem mem_shown_iff (q : String) (s : Sec) :
    s ∈ shown q ↔ s ∈ SECTIONS ∧ secMatches (lowerStr q) s = true := by
  simp [shown, List.mem_filter]

/-- Looking up a key in a freshly rendered keyed list built by mapping over
entries. -/
theorem flagOf_map_ids (L : List Sec) (f : String → Bool) (i : String) :
    flagOf (L.map (fun s => (s.id, f s.id))) i =
      if i ∈ L.map Sec.id then some (f i) else none := by
  induction L with
  | nil => simp [flagOf]
  | cons t rest ih =>
    simp only [List.map_cons, flagOf]
    by_cases h : t.id = i
    · subst h
      simp
    · rw [if_neg h, ih]
      by_cases hm : i ∈ rest.map Sec.id
      · rw [if_pos hm, if_pos (List.mem_cons_of_mem _ hm)]
      · rw [if_neg hm, if_neg ?_]
        intro hc
        rcases List.mem_cons.mp hc with he | hr
        · exact h he.symm
        · exact hm hr

/-- Reconciliation: the flag of key `i` after a render for query `q` is the
previous flag when `i` stays visible (defaulting to `false` when it was not
mounted), and `none` when `i` is not visible. -/
theorem flagOf_mountCards (prev : List (String × Bool)) (q : String) (i : String) :
    flagOf (mountCards prev q) i =
      if i ∈ (shown q).map Sec.id then some ((flagOf prev i).getD false) else none := by
  unfold mountCards
  exact flagOf_map_ids (shown q) (fun k => (flagOf prev k).getD false) i

/-- Toggling key `A` leaves the stored flag of any other key `B` unchanged. -/
theorem flagOf_toggle_ne (cards : List (String × Bool)) (A B : String) (h : B ≠ A) :
    flagOf (cards.map (fun p => if p.1 = A then (p.1, !p.2) else p)) B = flagOf cards B := by
  induction cards with
  | nil => simp [flagOf]
  | cons p rest ih =>
    obtain ⟨k, v⟩ := p
    rw [List.map_cons]
    by_cases hk : k = A
    · subst hk
      have hhead : (if (k, v).1 = k then ((k, v).1, !(k, v).2) else (k, v)) = (k, !v) := by
        simp
      rw [hhead]
      have hkB : ¬ k = B := fun e => h e.symm
      simp only [flagOf]
      rw [if_neg hkB, if_neg hkB]
      exact ih
    · have hhead : (if (k, v).1 = A then ((k, v).1, !(k, v).2) else (k, v)) = (k, v) := by
        simp [hk]
      rw [hhead]
      simp only [flagOf]
      by_cases hb : k = B
      · rw [if_pos hb, if_pos hb]
      · rw [if_neg hb, if_neg hb]
        exact ih

/-- The first-occurrence index found by `secIdx` indeed holds the element. -/
theorem secIdx_get (L : List Sec) (s : Sec) (h : s ∈ L) :
    L.get? (secIdx L s) = some s := by
  induction L with
  | nil => cases h
  | cons t rest ih =>
    by_cases ht : t = s
    · simp only [secIdx, if_pos ht]
      rw [ht]
      rfl
    · have hs : s ∈ rest := by
        cases h with
        | head => exact absurd rfl ht
        | tail _ h2 => exact h2
      simp only [secIdx, if_neg ht]
      exact ih hs

/-- On a duplicate-free list the index of an element is unique. -/
theorem secIdx_unique (L : List Sec) (s : Sec) (hnd : L.Nodup) :
    ∀ j, L.get? j = some s → j = secIdx L s := by
  induction L with
  | nil =>
    intro j hj
    simp [List.get?] at hj
  | cons t rest ih =>
    rcases List.nodup_cons.mp hnd with ⟨htr, hrest⟩
    intro j hj
    cases j with
    | zero =>
      have hts : t = s := by simpa using hj
      simp [secIdx, hts]
    | succ m =>
      have h2 : rest.get? m = some s := hj
      have hs : s ∈ rest := List.get?_mem h2
      have hts : ¬ t = s := fun e => htr (e ▸ hs)
      simp only [secIdx, if_neg hts]
      rw [ih hrest m h2]

/-- The catalog has no duplicate entries. -/
theorem SECTIONS_nodup : SECTIONS.Nodup := by decide
/-- C1: for every query string q and catalog entry e, e is in the visible
list produced by the filter exactly when the lowercase query is a substring
of the lowercase label, or of the lowercase description, or of the lowercase
code of e.  The id and note fields do not appear in the condition, and the
filter is a total function (it never fails). -/
theorem claim_C1_filter_membership (q : String) (e : Sec) :
    e ∈ shown q ↔
      e ∈ SECTIONS ∧
        (strIncludes (lowerStr e.label) (lowerStr q) = true ∨
          strIncludes (lowerStr e.desc) (lowerStr q) = true ∨
            strIncludes (lowerStr e.code) (lowerStr q) = true) := by
  rw [mem_shown_iff]
  simp [secMatches, Bool.or_eq_true, or_assoc]

/-- C2 counterexample: the one-tab query consists only of whitespace, yet the
filter returns the empty list rather than the full catalog (no catalog field
contains a tab character), so whitespace-only queries do not all return the
full catalog. -/
theorem claim_C2_counterexample : shown "\t" = [] ∧ SECTIONS ≠ [] := by
  constructor
  · decide
  · decide

/-- C2 (amended): the empty query returns the full catalog in original order,
and so does the single-space query (every entry's description contains a
space); but whitespace-only queries in general are not special-cased — they
are matched as ordinary substrings. -/
theorem claim_C2_empty_query_all : shown "" = SECTIONS ∧ shown " " = SECTIONS := by
  constructor
  · rfl
  · rfl

/-- C3 counterexample: expand the useState card (its flag becomes true), set
the query to useReducer (which filters the useState card out), then clear the
query: the useState card reappears collapsed (flag false), not expanded —
the local open state was destroyed when the card unmounted. -/
theorem claim_C3_counterexample :
    cardFlag (toggleCard initState "useState") "useState" = some true ∧
      sec_useState ∉ shown "useReducer" ∧
        sec_useState ∈ shown "" ∧
          cardFlag (setQuery (setQuery (toggleCard initState "useState") "useReducer") "")
              "useState" = some false := by
  refine ⟨?_, ?_, ?_, ?_⟩
  · decide
  · rw [mem_shown_iff]
    decide
  · rw [mem_shown_iff]
    decide
  · decide

/-- C3 (amended): expansion state does not survive filtering.  If a query
change removes entry i from the visible set (unmounting its card), then after
any further query change the card with key i is either not mounted or mounted
collapsed — never still expanded. -/
theorem claim_C3_amended_state_reset (st : AppState) (q1 q2 : String) (i : String)
    (h : i ∉ (shown q1).map Sec.id) :
    cardFlag (setQuery (setQuery st q1) q2) i =
      if i ∈ (shown q2).map Sec.id then some false else none := by
  show flagOf (mountCards (mountCards st.cards q1) q2) i = _
  rw [flagOf_mountCards, flagOf_mountCards, if_neg h]
  rfl

/-- Witness for C3 (amended) at a concrete input: the key nope is not visible
for the query e, and after clearing the query it is not mounted at all. -/
theorem claim_C3_amended_witness :
    cardFlag (setQuery (setQuery initState "e") "") "nope" = none := by
  rw [claim_C3_amended_state_reset initState "e" "" "nope" (by decide)]
  decide

/-- C5: for every query string, the visible list is a sublist of the catalog:
it preserves the catalog's relative order, duplicates nothing, and contains
no entry outside the catalog. -/
theorem claim_C5_visible_sublist (q : String) : List.Sublist (shown q) SECTIONS :=
  List.filter_sublist SECTIONS

/-- C6: filtering is case-insensitive — for every query the visible list
equals the visible list of the lowercased query; in particular the queries
USESTATE and usestate give the same visible list. -/
theorem claim_C6_case_insensitive :
    (∀ q : String, shown q = shown (lowerStr q)) ∧
      shown "USESTATE" = shown "usestate" := by
  have hmain : ∀ q : String, shown q = shown (lowerStr q) := by
    intro q
    unfold shown
    rw [lowerStr_idem]
  refine ⟨hmain, ?_⟩
  rw [hmain "USESTATE"]
  congr 1

/-- C7: initially every card is collapsed, and toggling the card with key A
never changes the flag of any card with a different key B (so any number of
cards can be open at once). -/
theorem claim_C7_toggle_frame :
    (∀ i b, cardFlag initState i = some b → b = false) ∧
      ∀ (st : AppState) (A B : String), B ≠ A →
        cardFlag (toggleCard st A) B = cardFlag st B := by
  constructor
  · intro i b hb
    have h := flagOf_mountCards [] "" i
    rw [show cardFlag initState i = flagOf (mountCards [] "") i from rfl, h] at hb
    by_cases hm : i ∈ (shown "").map Sec.id
    · rw [if_pos hm] at hb
      cases hb
      rfl
    · rw [if_neg hm] at hb
      cases hb
  · intro st A B hBA
    exact flagOf_toggle_ne st.cards A B hBA

/-- Witness for C7 at concrete inputs: the useState card starts collapsed,
and toggling useState leaves the useEffect card's flag unchanged. -/
theorem claim_C7_witness :
    (false = false) ∧
      cardFlag (toggleCard initState "useState") "useEffect" = cardFlag initState "useEffect" :=
  ⟨claim_C7_toggle_frame.1 "useState" false (by decide),
    claim_C7_toggle_frame.2 initState "useState" "useEffect" (by decide)⟩

/-- C9: on the actual catalog data, the query useReducer yields a visible set
containing the useReducer entry and excluding the useState entry, and the
query usememo matches the useCallback entry (whose snippet mentions useMemo)
in addition to the useMemo entry itself. -/
theorem claim_C9_actual_data :
    sec_useReducer ∈ shown "useReducer" ∧
      sec_useState ∉ shown "useReducer" ∧
        sec_useCallback ∈ shown "usememo" ∧
          sec_useMemo ∈ shown "usememo" := by
  refine ⟨?_, ?_, ?_, ?_⟩
  · rw [mem_shown_iff]
    decide
  · rw [mem_shown_iff]
    decide
  · rw [mem_shown_iff]
    decide
  · rw [mem_shown_iff]
    decide

/-- C10: every card rendered for any query is displayed with the number
one plus its entry's index in the full catalog — the position n-1 of the
catalog holds exactly that entry, and no other position does, so a card's
number never changes when other cards are filtered out. -/
theorem claim_C10_card_numbering (q : String) (s : Sec) (n : Nat)
    (h : (s, n) ∈ cardNumbers q) :
    SECTIONS.get? (n - 1) = some s ∧ ∀ j, SECTIONS.get? j = some s → j + 1 = n := by
  unfold cardNumbers at h
  rcases List.mem_map.mp h with ⟨t, ht, heq⟩
  have h1 : t = s := congrArg Prod.fst heq
  have h2 : secIdx SECTIONS t + 1 = n := congrArg Prod.snd heq
  subst h1
  have hmem : t ∈ SECTIONS := ((mem_shown_iff q t).mp ht).1
  constructor
  · have hn : n - 1 = secIdx SECTIONS t := by omega
    rw [hn]
    exact secIdx_get SECTIONS t hmem
  · intro j hj
    have := secIdx_unique SECTIONS t SECTIONS_nodup j hj
    omega

/-- Witness for C10 at a concrete input: with the empty query the first card
is the Functional Components entry displayed with number 1, and position 0 of
the catalog holds it. -/
theorem claim_C10_witness : SECTIONS.get? 0 = some sec_fnComp :=
  (claim_C10_card_numbering "" sec_fnComp 1 (by decide)).1
